import Mathlib

/-!
Shallow embedding of the Vulkan hello-triangle bootstrap program
(src/VulkanTesting/main.cpp and src/VulkanTesting/helper_extensions.cpp).

Vulkan handles and enum values are modelled as natural numbers; the
driver-side state that the program queries (queue-family tables, surface
capabilities, surface formats, present modes, advertised extensions) is
modelled as explicit data carried by a PhysicalDevice record.  All
definitions are translated from the C++ source; definitions translated
from the wording of the specification (for refinement comparisons) carry a
spec prefix in their name and say so in their doc comment.
-/

namespace VulkanTesting

/-- WIDTH constant from main.cpp: configured window width. -/
def WIDTH : Nat := 800

/-- HEIGHT constant from main.cpp: configured window height. -/
def HEIGHT : Nat := 600

/-- The UINT32_MAX sentinel used by chooseSwapExtent. -/
def UINT32_MAX : Nat := 2 ^ 32 - 1

/-- VkExtent2D: a width/height pair of uint32 values. -/
structure Extent2D where
  width : Nat
  height : Nat
deriving DecidableEq

/-- The fields of VkSurfaceCapabilitiesKHR that the program reads. -/
structure SurfaceCapabilities where
  currentExtent : Extent2D
  minImageExtent : Extent2D
  maxImageExtent : Extent2D
  minImageCount : Nat
  maxImageCount : Nat
deriving DecidableEq

/-- The Vulkan enum value VK_FORMAT_B8G8R8A8_UNORM. -/
def VK_FORMAT_B8G8R8A8_UNORM : Nat := 44

/-- The Vulkan enum value VK_COLORSPACE_SRGB_NONLINEAR_KHR. -/
def VK_COLORSPACE_SRGB_NONLINEAR_KHR : Nat := 0

/-- VkSurfaceFormatKHR: a pixel format paired with a color space. -/
structure SurfaceFormat where
  format : Nat
  colorSpace : Nat
deriving DecidableEq

/-- The match tested inside the loop of chooseSwapSurfaceFormat:
format == VK_FORMAT_B8G8R8A8_UNORM && colorSpace == VK_COLORSPACE_SRGB_NONLINEAR_KHR. -/
def isPreferredFormat (f : SurfaceFormat) : Bool :=
  f.format == VK_FORMAT_B8G8R8A8_UNORM && f.colorSpace == VK_COLORSPACE_SRGB_NONLINEAR_KHR

/-- chooseSwapSurfaceFormat from main.cpp: return the first format in the
list matching the preferred pair, else fall through to availableFormats[0].
The subscript on an empty vector is undefined behaviour in the C++; here
the result is none exactly in that ill-defined case. -/
def chooseSwapSurfaceFormat (availableFormats : List SurfaceFormat) : Option SurfaceFormat :=
  match availableFormats.find? isPreferredFormat with
  | some f => some f
  | none => availableFormats.head?

/-- chooseSwapExtent from main.cpp: take currentExtent verbatim unless its
width holds the UINT32_MAX sentinel, in which case clamp the configured
window size into the min/max image extent bounds. -/
def chooseSwapExtent (capabilities : SurfaceCapabilities) : Extent2D :=
  if capabilities.currentExtent.width ≠ UINT32_MAX then
    capabilities.currentExtent
  else
    { width := max capabilities.minImageExtent.width
        (min capabilities.maxImageExtent.width WIDTH),
      height := max capabilities.minImageExtent.height
        (min capabilities.maxImageExtent.height HEIGHT) }

/-- The image-count computation at the top of createSwapChain:
imageCount = minImageCount + 1 (uint32 arithmetic), then clamped down to
maxImageCount when maxImageCount > 0 and the count exceeds it. -/
def requestedImageCount (capabilities : SurfaceCapabilities) : Nat :=
  let imageCount := (capabilities.minImageCount + 1) % 2 ^ 32
  if capabilities.maxImageCount > 0 ∧ imageCount > capabilities.maxImageCount then
    capabilities.maxImageCount
  else
    imageCount

/-- The Vulkan flag bit VK_QUEUE_GRAPHICS_BIT. -/
def VK_QUEUE_GRAPHICS_BIT : Nat := 1

/-- One row of the queue-family table of a physical device: its
VkQueueFamilyProperties::queueFlags bitmask, together with the result of
the per-(family, surface) query vkGetPhysicalDeviceSurfaceSupportKHR for
the single surface of the program. -/
structure QueueFamily where
  queueFlags : Nat
  presentSupport : Bool
deriving DecidableEq

/-- The QueueFamilyIndices struct from main.cpp. -/
structure QueueFamilyIndices where
  graphicsFamily : Option Nat
  presentFamily : Option Nat
deriving DecidableEq

/-- QueueFamilyIndices::isComplete from main.cpp. -/
def QueueFamilyIndices.isComplete (q : QueueFamilyIndices) : Bool :=
  q.graphicsFamily.isSome && q.presentFamily.isSome

/-- The graphics test in findQueueFamilies:
queueFamily.queueFlags & VK_QUEUE_GRAPHICS_BIT. -/
def hasGraphicsFlag (qf : QueueFamily) : Bool :=
  (qf.queueFlags &&& VK_QUEUE_GRAPHICS_BIT) != 0

/-- The loop body of findQueueFamilies: walk the family table with a
running index i, overwriting graphicsFamily whenever the graphics flag
bit is set and presentFamily whenever the family supports presentation. -/
def findQueueFamiliesAux : List QueueFamily → Nat → QueueFamilyIndices → QueueFamilyIndices
  | [], _, indices => indices
  | qf :: rest, i, indices =>
    let indices1 :=
      if hasGraphicsFlag qf then { indices with graphicsFamily := some i } else indices
    let indices2 :=
      if qf.presentSupport then { indices1 with presentFamily := some i } else indices1
    findQueueFamiliesAux rest (i + 1) indices2

/-- findQueueFamilies from main.cpp, starting from both roles unresolved. -/
def findQueueFamilies (queueFamilies : List QueueFamily) : QueueFamilyIndices :=
  findQueueFamiliesAux queueFamilies 0 { graphicsFamily := none, presentFamily := none }

/-- The deviceExtensions constant from main.cpp:
{ VK_KHR_SWAPCHAIN_EXTENSION_NAME }. -/
def deviceExtensions : List String := ["VK_KHR_swapchain"]

/-- checkDeviceExtensionSupport from main.cpp: build the set of required
extension names, erase every advertised extension name from it, and
report whether the set ended up empty.  std::set construction from the
required list is modelled by dedup (set ordering is irrelevant to the
emptiness test). -/
def checkDeviceExtensionSupport (availableExtensions : List String) : Bool :=
  (availableExtensions.foldl (fun req ext => req.erase ext) deviceExtensions.dedup).isEmpty

/-- A physical device together with all the driver-side state the program
queries about it: its queue-family table (with per-family surface support
for the surface of the program), its advertised device-level extensions, and
its swap-chain support query results (capabilities, surface formats,
present modes), as returned by querySwapChainSupport. -/
structure PhysicalDevice where
  deviceId : Nat
  queueFamilies : List QueueFamily
  availableExtensions : List String
  capabilities : SurfaceCapabilities
  formats : List SurfaceFormat
  presentModes : List Nat
deriving DecidableEq

/-- isDeviceSuitable from main.cpp: require both queue roles resolved,
required device extensions supported and — queried only when the
extensions are supported — non-empty format and present-mode lists. -/
def isDeviceSuitable (d : PhysicalDevice) : Bool :=
  let indices := findQueueFamilies d.queueFamilies
  let extensionsSupported := checkDeviceExtensionSupport d.availableExtensions
  let swapChainAdequate :=
    if extensionsSupported then !d.formats.isEmpty && !d.presentModes.isEmpty else false
  indices.graphicsFamily.isSome && indices.presentFamily.isSome &&
    extensionsSupported && swapChainAdequate

/-- The selection loop of pickPhysicalDevice: every suitable device
overwrites the previously stored handle, so the last suitable device of
the enumeration wins. -/
def pickPhysicalDeviceLoop (devices : List PhysicalDevice) : Option PhysicalDevice :=
  devices.foldl (fun picked d => if isDeviceSuitable d then some d else picked) none

/-- pickPhysicalDevice from main.cpp: fatal when the enumeration is empty,
fatal when no enumerated device is suitable, otherwise the device left by
the selection loop. -/
def pickPhysicalDevice (devices : List PhysicalDevice) : Except String PhysicalDevice :=
  if devices.isEmpty then
    Except.error "Failed to find Vulkan GPUs"
  else
    match pickPhysicalDeviceLoop devices with
    | some d => Except.ok d
    | none => Except.error "Failed to select a suitable GPU"

/-- The double loop of checkGlfwRequiredExtensionsAvailable in
helper_extensions.cpp: for every required extension name, count every
supported entry whose name compares equal, accumulating one total
matchingExtensions counter over all pairs. -/
def countMatches : List String → List String → Nat
  | [], _ => 0
  | r :: rs, supported =>
    (supported.filter (fun s => s == r)).length + countMatches rs supported

/-- checkGlfwRequiredExtensionsAvailable from helper_extensions.cpp:
report whether the total number of matching (required, supported) pairs
equals the number of required extensions.  The required list models
listGlfwRequiredExtensions and the supported list models
listVulkanSupportedExtensions. -/
def checkGlfwRequiredExtensionsAvailable
    (glfwExtensions vulkanExtensions : List String) : Bool :=
  countMatches glfwExtensions vulkanExtensions == glfwExtensions.length

/-- The filesystem as the program sees it through std::ifstream: per path,
either none (the file cannot be opened) or the byte contents. -/
structure FileSystem where
  contents : String → Option (List Nat)

/-- readFile from main.cpp: throw when the stream fails to open; otherwise
read the whole file (tellg at the end gives its size, zero included) and
return the buffer. -/
def readFile (fs : FileSystem) (filename : String) : Except String (List Nat) :=
  match fs.contents filename with
  | none => Except.error "Failed to open file"
  | some data => Except.ok data

/-- The two readFile calls at the start of createGraphicsPipeline, on the
fixed vertex- and fragment-shader paths; the first failure unwinds. -/
def loadShaderCode (fs : FileSystem) : Except String (List Nat × List Nat) := do
  let vertShaderCode ← readFile fs "shaders/vert.spv"
  let fragShaderCode ← readFile fs "shaders/frag.spv"
  return (vertShaderCode, fragShaderCode)

/-- The fields of VkDeviceQueueCreateInfo that createLogicalDevice
populates (queuePriority models the float 1.0f written through
pQueuePriorities). -/
structure DeviceQueueCreateInfo where
  queueFamilyIndex : Nat
  queueCount : Nat
  queuePriority : ℚ
deriving DecidableEq

/-- The std::set<uint32_t> uniqueQueueFamilies = {graphics, present} in
createLogicalDevice, iterated in the ascending order of the set. -/
def uniqueQueueFamilies (graphicsFamily presentFamily : Nat) : List Nat :=
  if graphicsFamily = presentFamily then [graphicsFamily]
  else if graphicsFamily < presentFamily then [graphicsFamily, presentFamily]
  else [presentFamily, graphicsFamily]

/-- The queueCreateInfos vector built by the loop in createLogicalDevice:
one VkDeviceQueueCreateInfo per distinct family, queueCount 1,
priority 1.0. -/
def makeQueueCreateInfos (graphicsFamily presentFamily : Nat) : List DeviceQueueCreateInfo :=
  (uniqueQueueFamilies graphicsFamily presentFamily).map
    (fun fam => { queueFamilyIndex := fam, queueCount := 1, queuePriority := 1 })

/-- The Vulkan flag bit VK_PIPELINE_STAGE_COLOR_ATTACHMENT_OUTPUT_BIT. -/
def VK_PIPELINE_STAGE_COLOR_ATTACHMENT_OUTPUT_BIT : Nat := 1024

/-- The fields of VkSubmitInfo that drawFrame populates; each list models
a (count, pointer) pair of the C struct. -/
structure SubmitInfo where
  waitSemaphores : List Nat
  waitDstStageMask : List Nat
  commandBuffers : List Nat
  signalSemaphores : List Nat
deriving DecidableEq

/-- The fields of VkPresentInfoKHR that drawFrame populates. -/
structure PresentInfo where
  waitSemaphores : List Nat
  swapchains : List Nat
  imageIndices : List Nat
deriving DecidableEq

/-- A vkQueueSubmit call: target queue and the array of submissions
passed in (drawFrame passes submitCount = 1). -/
structure QueueSubmission where
  queue : Nat
  submits : List SubmitInfo
deriving DecidableEq

/-- A vkQueuePresentKHR call: target queue and present info. -/
structure QueuePresent where
  queue : Nat
  info : PresentInfo
deriving DecidableEq

/-- The application state drawFrame reads: the per-image command buffers,
the two semaphores, the swap chain and the two queue handles. -/
structure FrameContext where
  commandBuffers : List Nat
  imageAvailableSemaphore : Nat
  renderFinishedSemaphore : Nat
  swapChain : Nat
  graphicsQueue : Nat
  presentQueue : Nat
deriving DecidableEq

/-- The VkSubmitInfo built by drawFrame for an acquired image index:
wait on imageAvailableSemaphore at the color-attachment-output stage, run
commandBuffers[imageIndex], signal renderFinishedSemaphore.  The C++
indexing commandBuffers[imageIndex] is modelled with a default for the
out-of-range case. -/
def buildSubmitInfo (ctx : FrameContext) (imageIndex : Nat) : SubmitInfo :=
  { waitSemaphores := [ctx.imageAvailableSemaphore],
    waitDstStageMask := [VK_PIPELINE_STAGE_COLOR_ATTACHMENT_OUTPUT_BIT],
    commandBuffers := [ctx.commandBuffers.getD imageIndex 0],
    signalSemaphores := [ctx.renderFinishedSemaphore] }

/-- drawFrame from main.cpp, after vkAcquireNextImageKHR has produced
imageIndex: submit one VkSubmitInfo for that index on the graphics queue
(fatal when vkQueueSubmit does not return VK_SUCCESS, modelled by the
submitOk flag), then present that index on the presentation queue,
waiting on the same semaphore the submission signals. -/
def drawFrame (ctx : FrameContext) (imageIndex : Nat) (submitOk : Bool) :
    Except String (QueueSubmission × QueuePresent) :=
  let submitInfo := buildSubmitInfo ctx imageIndex
  if !submitOk then
    Except.error "Failed to submit draw command buffer"
  else
    let presentInfo : PresentInfo :=
      { waitSemaphores := submitInfo.signalSemaphores,
        swapchains := [ctx.swapChain],
        imageIndices := [imageIndex] }
    Except.ok
      ({ queue := ctx.graphicsQueue, submits := [submitInfo] },
       { queue := ctx.presentQueue, info := presentInfo })

/-- The predicate of the presentation role in findQueueFamilies: the
per-(family, surface) support query result. -/
def hasPresentSupport (qf : QueueFamily) : Bool :=
  qf.presentSupport

/-- Index of the last entry of the list satisfying p: a match anywhere in
the tail (at offset j, reported as j + 1) takes precedence over a match
at the head (reported as 0). -/
def lastMatchIdx (p : QueueFamily → Bool) : List QueueFamily → Option Nat
  | [] => none
  | qf :: rest =>
    match lastMatchIdx p rest with
    | some j => some (j + 1)
    | none => if p qf then some 0 else none

/-- The queue-family table used in counterexamples: two families, both
graphics-capable, neither present-capable. -/
def twoGraphicsFamilies : List QueueFamily :=
  [{ queueFlags := 1, presentSupport := false },
   { queueFlags := 1, presentSupport := false }]

/-- A concrete physical device passing every predicate of
isDeviceSuitable: one graphics- and present-capable family, the swapchain
extension advertised, one surface format and one present mode. -/
def sampleDevice : PhysicalDevice :=
  { deviceId := 7,
    queueFamilies := [{ queueFlags := 1, presentSupport := true }],
    availableExtensions := ["VK_KHR_swapchain"],
    capabilities :=
      { currentExtent := { width := 800, height := 600 },
        minImageExtent := { width := 1, height := 1 },
        maxImageExtent := { width := 4096, height := 4096 },
        minImageCount := 2, maxImageCount := 0 },
    formats := [{ format := 44, colorSpace := 0 }],
    presentModes := [2] }

/-- A filesystem on which every path opens and reads as a zero-length
file. -/
def zeroLengthFs : FileSystem := { contents := fun _ => some [] }

/-- A filesystem with no openable file at all. -/
def missingFs : FileSystem := { contents := fun _ => none }

/-- A concrete frame context used to witness the drawFrame theorem. -/
def sampleFrameContext : FrameContext :=
  { commandBuffers := [10, 11, 12],
    imageAvailableSemaphore := 1,
    renderFinishedSemaphore := 2,
    swapChain := 3,
    graphicsQueue := 4,
    presentQueue := 5 }

/-- Surface capabilities reporting the UINT32_MAX sentinel, with ordered
extent bounds that truncate the 800x600 window size. -/
def sentinelCapabilities : SurfaceCapabilities :=
  { currentExtent := { width := UINT32_MAX, height := 600 },
    minImageExtent := { width := 100, height := 100 },
    maxImageExtent := { width := 700, height := 500 },
    minImageCount := 2, maxImageCount := 0 }

lemma findQueueFamiliesAux_graphics (fams : List QueueFamily) :
    ∀ (i : Nat) (indices : QueueFamilyIndices),
      (findQueueFamiliesAux fams i indices).graphicsFamily =
        match lastMatchIdx hasGraphicsFlag fams with
        | some j => some (i + j)
        | none => indices.graphicsFamily := by
  induction fams with
  | nil => intro i indices; rfl
  | cons qf rest ih =>
    intro i indices
    simp only [findQueueFamiliesAux, ih, lastMatchIdx]
    cases hrest : lastMatchIdx hasGraphicsFlag rest with
    | some j =>
      simp only []
      congr 1
      omega
    | none =>
      cases hg : hasGraphicsFlag qf <;>
        cases hp : hasPresentSupport qf <;>
          simp [hasPresentSupport] at hp <;>
            simp [hg, hp]

lemma findQueueFamiliesAux_present (fams : List QueueFamily) :
    ∀ (i : Nat) (indices : QueueFamilyIndices),
      (findQueueFamiliesAux fams i indices).presentFamily =
        match lastMatchIdx hasPresentSupport fams with
        | some j => some (i + j)
        | none => indices.presentFamily := by
  induction fams with
  | nil => intro i indices; rfl
  | cons qf rest ih =>
    intro i indices
    simp only [findQueueFamiliesAux, ih, lastMatchIdx]
    cases hrest : lastMatchIdx hasPresentSupport rest with
    | some j =>
      simp only []
      congr 1
      omega
    | none =>
      cases hg : hasGraphicsFlag qf <;>
        cases hp : hasPresentSupport qf <;>
          simp [hasPresentSupport] at hp <;>
            simp [hg, hp, hasPresentSupport]

/-- C1 counterexample: the claim says findQueueFamilies records the FIRST
family index matching the predicate of each role.  On a table with two
graphics-capable families the code stores index 1 (each match overwrites
the previous one), while the first matching index — List.findIdx? over
the same predicate — is 0.  Since some 1 ≠ some 0, the claim is false. -/
theorem findQueueFamilies_first_index_counterexample :
    (findQueueFamilies twoGraphicsFamilies).graphicsFamily = some 1 ∧
    twoGraphicsFamilies.findIdx? hasGraphicsFlag = some 0 ∧
    (findQueueFamilies twoGraphicsFamilies).graphicsFamily ≠
      twoGraphicsFamilies.findIdx? hasGraphicsFlag := by
  refine ⟨rfl, rfl, ?_⟩
  decide

/-- C1 (amended): For every physical device, findQueueFamilies scans the
queue-family table once and records, for each of the two roles, the LAST
family index matching the predicate of that role (graphics-capable via the
graphics flag bit; presentation-capable via the per-(family, surface)
support query), the two searches being independent. -/
theorem findQueueFamilies_records_last_match (fams : List QueueFamily) :
    (findQueueFamilies fams).graphicsFamily = lastMatchIdx hasGraphicsFlag fams ∧
    (findQueueFamilies fams).presentFamily = lastMatchIdx hasPresentSupport fams := by
  constructor
  · rw [findQueueFamilies, findQueueFamiliesAux_graphics]
    cases lastMatchIdx hasGraphicsFlag fams <;> simp
  · rw [findQueueFamilies, findQueueFamiliesAux_present]
    cases lastMatchIdx hasPresentSupport fams <;> simp

lemma foldl_erase_nil (avail : List String) :
    avail.foldl (fun req ext => req.erase ext) ([] : List String) = [] := by
  induction avail with
  | nil => rfl
  | cons a t ih => simpa using ih

lemma foldl_erase_singleton (avail : List String) (r : String) :
    (avail.foldl (fun req ext => req.erase ext) [r]).isEmpty = avail.contains r := by
  induction avail with
  | nil => rfl
  | cons a t ih =>
    simp only [List.foldl_cons]
    by_cases har : r = a
    · subst har
      rw [show [r].erase r = [] by simp, foldl_erase_nil]
      simp
    · rw [show [r].erase a = [r] by simp [List.erase_cons, har], ih, List.contains_cons]
      simp [beq_iff_eq, har]

/-- checkDeviceExtensionSupport succeeds exactly when every required
device extension name occurs among the advertised ones. -/
lemma checkDeviceExtensionSupport_iff (avail : List String) :
    checkDeviceExtensionSupport avail = true ↔ ∀ r ∈ deviceExtensions, r ∈ avail := by
  rw [checkDeviceExtensionSupport,
    show deviceExtensions.dedup = ["VK_KHR_swapchain"] by decide,
    foldl_erase_singleton]
  simp [deviceExtensions]

lemma isDeviceSuitable_iff (d : PhysicalDevice) :
    isDeviceSuitable d = true ↔
      ((findQueueFamilies d.queueFamilies).graphicsFamily.isSome = true ∧
       (findQueueFamilies d.queueFamilies).presentFamily.isSome = true ∧
       checkDeviceExtensionSupport d.availableExtensions = true ∧
       d.formats ≠ [] ∧ d.presentModes ≠ []) := by
  rw [isDeviceSuitable]
  by_cases hext : checkDeviceExtensionSupport d.availableExtensions = true
  · simp [hext, Bool.and_eq_true, and_assoc, List.isEmpty_iff, List.isEmpty_eq_false]
  · rw [Bool.not_eq_true] at hext
    simp [hext]

lemma foldl_pick_or (devices : List PhysicalDevice) :
    ∀ acc : Option PhysicalDevice,
      devices.foldl (fun picked d => if isDeviceSuitable d then some d else picked) acc =
        ((devices.filter (fun d => isDeviceSuitable d)).getLast?).or acc := by
  induction devices using List.reverseRecOn with
  | nil => intro acc; simp
  | append_singleton l a ih =>
    intro acc
    rw [List.foldl_append]
    simp only [List.foldl_cons, List.foldl_nil]
    rw [ih]
    by_cases ha : isDeviceSuitable a
    · simp [List.filter_append, ha, List.getLast?_concat]
    · simp [List.filter_append, ha]

lemma pickPhysicalDeviceLoop_eq (devices : List PhysicalDevice) :
    pickPhysicalDeviceLoop devices =
      (devices.filter (fun d => isDeviceSuitable d)).getLast? := by
  rw [pickPhysicalDeviceLoop, foldl_pick_or]
  cases (devices.filter fun d => isDeviceSuitable d).getLast? <;> rfl

lemma pick_ok_suitable (devices : List PhysicalDevice) (d : PhysicalDevice)
    (h : pickPhysicalDevice devices = Except.ok d) : isDeviceSuitable d = true := by
  rw [pickPhysicalDevice] at h
  by_cases hemp : devices.isEmpty
  · simp [hemp] at h
  · rw [if_neg hemp, pickPhysicalDeviceLoop_eq] at h
    cases hl : (devices.filter fun x => isDeviceSuitable x).getLast? with
    | none => rw [hl] at h; exact absurd h (by simp)
    | some e =>
      rw [hl] at h
      obtain ⟨rfl⟩ : e = d := by
        cases h
        rfl
      obtain ⟨ys, hys⟩ := List.getLast?_eq_some_iff.mp hl
      have hmem : d ∈ devices.filter fun x => isDeviceSuitable x := by
        rw [hys]
        exact List.mem_append_right ys (List.mem_singleton.mpr rfl)
      exact (List.mem_filter.mp hmem).2

/-- C2: isDeviceSuitable accepts a device iff both queue roles are
resolved, all required device extensions are present, and the queried
format and present-mode lists are both non-empty; pickPhysicalDevice
returns the last enumerated accepted device and fails fatally when none
is accepted (or none is enumerated); consequently a selected device never
has zero formats or zero present modes. -/
theorem device_selection_spec :
    (∀ d : PhysicalDevice,
       isDeviceSuitable d = true ↔
         ((findQueueFamilies d.queueFamilies).graphicsFamily.isSome = true ∧
          (findQueueFamilies d.queueFamilies).presentFamily.isSome = true ∧
          checkDeviceExtensionSupport d.availableExtensions = true ∧
          d.formats ≠ [] ∧ d.presentModes ≠ [])) ∧
    (∀ avail : List String,
       checkDeviceExtensionSupport avail = true ↔ ∀ r ∈ deviceExtensions, r ∈ avail) ∧
    (∀ devices : List PhysicalDevice,
       pickPhysicalDevice devices =
         match (devices.filter (fun d => isDeviceSuitable d)).getLast? with
         | some d => Except.ok d
         | none =>
           Except.error (if devices.isEmpty then "Failed to find Vulkan GPUs"
             else "Failed to select a suitable GPU")) ∧
    (∀ (devices : List PhysicalDevice) (d : PhysicalDevice),
       pickPhysicalDevice devices = Except.ok d →
         d.formats ≠ [] ∧ d.presentModes ≠ []) := by
  refine ⟨isDeviceSuitable_iff, checkDeviceExtensionSupport_iff, ?_, ?_⟩
  · intro devices
    rw [pickPhysicalDevice]
    by_cases hemp : devices.isEmpty
    · rw [List.isEmpty_iff.mp hemp]
      simp
    · rw [if_neg hemp, pickPhysicalDeviceLoop_eq]
      cases (devices.filter fun d => isDeviceSuitable d).getLast? with
      | none => simp [hemp]
      | some d => rfl
  · intro devices d h
    have hs := (isDeviceSuitable_iff d).mp (pick_ok_suitable devices d h)
    exact ⟨hs.2.2.2.1, hs.2.2.2.2⟩

/-- C2 witness: the device-selection theorem applied to the one-element
enumeration holding sampleDevice. -/
theorem device_selection_spec_witness :
    sampleDevice.formats ≠ [] ∧ sampleDevice.presentModes ≠ [] :=
  device_selection_spec.2.2.2 [sampleDevice] sampleDevice (by rfl)

lemma chooseSwapSurfaceFormat_isSome_of_ne_nil (l : List SurfaceFormat) (h : l ≠ []) :
    (chooseSwapSurfaceFormat l).isSome = true := by
  rw [chooseSwapSurfaceFormat]
  cases hf : l.find? isPreferredFormat with
  | some f => rfl
  | none => simpa using h

/-- C10: chooseSwapSurfaceFormat falls through to element 0 of its
argument, so it is only well-defined (some) on non-empty lists — on the
empty list the model yields none, mirroring the out-of-bounds subscript.
On the only call path of the program the precondition always holds: a device
accepted by isDeviceSuitable has a non-empty format list, and
createSwapChain runs only on a device returned by pickPhysicalDevice,
which returns accepted devices only. -/
theorem chooseSwapSurfaceFormat_precondition_safe :
    chooseSwapSurfaceFormat [] = none ∧
    (∀ d : PhysicalDevice, isDeviceSuitable d = true → d.formats ≠ []) ∧
    (∀ (devices : List PhysicalDevice) (d : PhysicalDevice),
       pickPhysicalDevice devices = Except.ok d →
         (chooseSwapSurfaceFormat d.formats).isSome = true) := by
  refine ⟨rfl, ?_, ?_⟩
  · intro d hd
    exact ((isDeviceSuitable_iff d).mp hd).2.2.2.1
  · intro devices d h
    exact chooseSwapSurfaceFormat_isSome_of_ne_nil _
      (((isDeviceSuitable_iff d).mp (pick_ok_suitable devices d h)).2.2.2.1)

/-- C10 witness: the safety theorem applied to the one-element
enumeration holding sampleDevice. -/
theorem chooseSwapSurfaceFormat_precondition_safe_witness :
    (chooseSwapSurfaceFormat sampleDevice.formats).isSome = true :=
  chooseSwapSurfaceFormat_precondition_safe.2.2 [sampleDevice] sampleDevice (by rfl)

lemma filter_beq_length_of_nodup (sup : List String) (r : String) (h : sup.Nodup) :
    (sup.filter (fun s => s == r)).length = if r ∈ sup then 1 else 0 := by
  induction sup with
  | nil => simp
  | cons a t ih =>
    rw [List.nodup_cons] at h
    obtain ⟨ha, ht⟩ := h
    by_cases har : a = r
    · subst har
      have hnt : a ∉ t := ha
      simp [List.filter_cons, ih ht, hnt]
    · simp [List.filter_cons, har, ih ht, List.mem_cons, Ne.symm har]

lemma countMatches_le (req sup : List String) (h : sup.Nodup) :
    countMatches req sup ≤ req.length := by
  induction req with
  | nil => simp [countMatches]
  | cons r rs ih =>
    rw [countMatches, filter_beq_length_of_nodup sup r h]
    by_cases hr : r ∈ sup <;> simp [hr, List.length_cons] <;> omega

lemma countMatches_eq_length_iff (req sup : List String) (h : sup.Nodup) :
    countMatches req sup = req.length ↔ ∀ r ∈ req, r ∈ sup := by
  induction req with
  | nil => simp [countMatches]
  | cons r rs ih =>
    rw [countMatches, filter_beq_length_of_nodup sup r h, List.length_cons]
    have hle := countMatches_le rs sup h
    by_cases hr : r ∈ sup
    · rw [if_pos hr]
      constructor
      · intro he x hx
        rcases List.mem_cons.mp hx with hx | hx
        · exact hx ▸ hr
        · exact (ih.mp (by omega)) x hx
      · intro hall
        have : countMatches rs sup = rs.length :=
          ih.mpr (fun x hx => hall x (List.mem_cons_of_mem r hx))
        omega
    · rw [if_neg hr]
      constructor
      · intro he
        omega
      · intro hall
        exact absurd (hall r (List.mem_cons_self r rs)) hr

/-- C3 counterexample: the claim says the check returns true iff every
required extension string occurs in the supported list.  With required
list ["A"] and supported list ["A", "A"] the required string does occur
in the supported list, yet the function counts two matching pairs against
one required entry and returns false. -/
theorem checkGlfwRequiredExtensionsAvailable_counterexample :
    checkGlfwRequiredExtensionsAvailable ["A"] ["A", "A"] = false ∧
    (["A"].all fun r => (["A", "A"]).contains r) = true := by
  exact ⟨rfl, rfl⟩

/-- C3 (amended): checkGlfwRequiredExtensionsAvailable returns true iff
the total number of matching (required entry, supported entry) pairs
equals the number of required entries; when the supported list has no
duplicate entries this coincides with the subset reading of the claim: true
iff every required extension string occurs in the supported list. -/
theorem checkGlfwRequiredExtensionsAvailable_subset (req sup : List String)
    (h : sup.Nodup) :
    (checkGlfwRequiredExtensionsAvailable req sup = true ↔
       countMatches req sup = req.length) ∧
    (checkGlfwRequiredExtensionsAvailable req sup = true ↔ ∀ r ∈ req, r ∈ sup) := by
  have hcount : checkGlfwRequiredExtensionsAvailable req sup = true ↔
      countMatches req sup = req.length := by
    rw [checkGlfwRequiredExtensionsAvailable]
    exact beq_iff_eq
  exact ⟨hcount, hcount.trans (countMatches_eq_length_iff req sup h)⟩

/-- C3 witness: the amended theorem applied to required list ["A"] and
duplicate-free supported list ["A", "B"]. -/
theorem checkGlfwRequiredExtensionsAvailable_subset_witness :
    checkGlfwRequiredExtensionsAvailable ["A"] ["A", "B"] = true :=
  (checkGlfwRequiredExtensionsAvailable_subset ["A"] ["A", "B"] (by decide)).2.mpr
    (by decide)

/-- C4 counterexample: the claim says readFile, as invoked on the two
shader paths during pipeline creation, fails for zero-length files.  On a
filesystem where both shader files open as zero-length files, both reads
succeed with empty buffers and pipeline creation proceeds — no error is
raised, so the claim is false. -/
theorem readFile_zero_length_counterexample :
    readFile zeroLengthFs "shaders/vert.spv" = Except.ok [] ∧
    loadShaderCode zeroLengthFs = Except.ok ([], []) := by
  exact ⟨rfl, rfl⟩

/-- C4 (amended): reading a shader binary raises a fatal startup error
when the file cannot be opened, and this propagates through the two
shader reads of createGraphicsPipeline; a zero-length file, however, is
not an error: it is read successfully into an empty buffer. -/
theorem readFile_error_spec (fs : FileSystem) (filename : String) :
    (fs.contents filename = none →
       readFile fs filename = Except.error "Failed to open file") ∧
    (∀ data, fs.contents filename = some data →
       readFile fs filename = Except.ok data) ∧
    (fs.contents "shaders/vert.spv" = none →
       loadShaderCode fs = Except.error "Failed to open file") ∧
    (∀ vertData, fs.contents "shaders/vert.spv" = some vertData →
       fs.contents "shaders/frag.spv" = none →
       loadShaderCode fs = Except.error "Failed to open file") := by
  refine ⟨?_, ?_, ?_, ?_⟩
  · intro h
    rw [readFile, h]
  · intro data h
    rw [readFile, h]
  · intro h
    have hv : readFile fs "shaders/vert.spv" = Except.error "Failed to open file" := by
      rw [readFile, h]
    simp only [loadShaderCode, hv]
    rfl
  · intro vertData hv hf
    have hv2 : readFile fs "shaders/vert.spv" = Except.ok vertData := by
      rw [readFile, hv]
    have hf2 : readFile fs "shaders/frag.spv" = Except.error "Failed to open file" := by
      rw [readFile, hf]
    simp only [loadShaderCode, hv2, hf2]
    rfl

/-- C4 witness: the amended theorem applied to the filesystem with no
openable files. -/
theorem readFile_error_spec_witness :
    readFile missingFs "shaders/vert.spv" = Except.error "Failed to open file" ∧
    loadShaderCode missingFs = Except.error "Failed to open file" := by
  have h := readFile_error_spec missingFs "shaders/vert.spv"
  exact ⟨h.1 rfl, h.2.2.1 rfl⟩

/-- C5: for every acquired image index i (in range of the command-buffer
array), drawFrame builds exactly one submission on the graphics queue
referencing the command buffer at index i, waiting on the image-available
semaphore gated at the color-attachment-output stage and signalling the
render-finished semaphore; it then requests presentation of index i on
the presentation queue gated on the render-finished semaphore; submission
failure is fatal. -/
theorem drawFrame_submission_spec (ctx : FrameContext) (imageIndex : Nat)
    (h : imageIndex < ctx.commandBuffers.length) :
    buildSubmitInfo ctx imageIndex =
      { waitSemaphores := [ctx.imageAvailableSemaphore],
        waitDstStageMask := [VK_PIPELINE_STAGE_COLOR_ATTACHMENT_OUTPUT_BIT],
        commandBuffers := [ctx.commandBuffers.get ⟨imageIndex, h⟩],
        signalSemaphores := [ctx.renderFinishedSemaphore] } ∧
    drawFrame ctx imageIndex true =
      Except.ok
        ({ queue := ctx.graphicsQueue, submits := [buildSubmitInfo ctx imageIndex] },
         { queue := ctx.presentQueue,
           info := { waitSemaphores := [ctx.renderFinishedSemaphore],
                     swapchains := [ctx.swapChain],
                     imageIndices := [imageIndex] } }) ∧
    drawFrame ctx imageIndex false = Except.error "Failed to submit draw command buffer" := by
  refine ⟨?_, rfl, rfl⟩
  rw [buildSubmitInfo]
  simp [List.getD_eq_getElem?_getD, List.getElem?_eq_getElem h, List.get_eq_getElem]

/-- C5 witness: the drawFrame theorem applied to the sample frame context
at acquired image index 1. -/
theorem drawFrame_submission_spec_witness :
    (buildSubmitInfo sampleFrameContext 1).commandBuffers = [11] ∧
    drawFrame sampleFrameContext 1 false =
      Except.error "Failed to submit draw command buffer" := by
  have h := drawFrame_submission_spec sampleFrameContext 1 (by decide)
  exact ⟨by rw [h.1]; rfl, h.2.2⟩

/-- C6: chooseSwapExtent returns currentExtent verbatim whenever its
width differs from the UINT32_MAX sentinel; when the width equals the
sentinel it returns the configured 800x600 window size clamped
component-wise into [minImageExtent, maxImageExtent] (the clamped value
lies in those bounds whenever the bounds are ordered). -/
theorem chooseSwapExtent_spec (capabilities : SurfaceCapabilities) :
    (capabilities.currentExtent.width ≠ UINT32_MAX →
       chooseSwapExtent capabilities = capabilities.currentExtent) ∧
    (capabilities.currentExtent.width = UINT32_MAX →
       (chooseSwapExtent capabilities).width =
           max capabilities.minImageExtent.width
             (min capabilities.maxImageExtent.width WIDTH) ∧
       (chooseSwapExtent capabilities).height =
           max capabilities.minImageExtent.height
             (min capabilities.maxImageExtent.height HEIGHT) ∧
       (capabilities.minImageExtent.width ≤ capabilities.maxImageExtent.width →
          capabilities.minImageExtent.width ≤ (chooseSwapExtent capabilities).width ∧
          (chooseSwapExtent capabilities).width ≤ capabilities.maxImageExtent.width) ∧
       (capabilities.minImageExtent.height ≤ capabilities.maxImageExtent.height →
          capabilities.minImageExtent.height ≤ (chooseSwapExtent capabilities).height ∧
          (chooseSwapExtent capabilities).height ≤ capabilities.maxImageExtent.height)) := by
  by_cases h : capabilities.currentExtent.width = UINT32_MAX
  · refine ⟨fun hne => absurd h hne, fun _ => ?_⟩
    rw [chooseSwapExtent, if_neg (by simpa using h)]
    refine ⟨rfl, rfl, ?_, ?_⟩ <;> intro hle <;> constructor <;> simp <;> omega
  · exact ⟨fun _ => by rw [chooseSwapExtent, if_pos h], fun he => absurd he h⟩

/-- C6 witness: the extent theorem applied to sentinel capabilities whose
bounds clamp 800x600 down to 700x500. -/
theorem chooseSwapExtent_spec_witness :
    (chooseSwapExtent sentinelCapabilities).width = 700 ∧
    (chooseSwapExtent sentinelCapabilities).height = 500 := by
  have h := (chooseSwapExtent_spec sentinelCapabilities).2 (by rfl)
  exact ⟨by rw [h.1]; decide, by rw [h.2.1]; decide⟩

/-- C7: on a non-empty format list containing an entry with the
BGRA8-UNORM format and SRGB-nonlinear color space, chooseSwapSurfaceFormat
returns exactly such an entry of the list; on a non-empty list with no
such entry, it returns element 0 of the list. -/
theorem chooseSwapSurfaceFormat_spec (availableFormats : List SurfaceFormat)
    (hne : availableFormats ≠ []) :
    ((∃ g ∈ availableFormats, isPreferredFormat g = true) →
       ∃ f, chooseSwapSurfaceFormat availableFormats = some f ∧
         f ∈ availableFormats ∧ isPreferredFormat f = true) ∧
    ((∀ g ∈ availableFormats, isPreferredFormat g = false) →
       chooseSwapSurfaceFormat availableFormats =
         some (availableFormats.head hne)) := by
  constructor
  · rintro ⟨g, hg, hpg⟩
    cases hf : availableFormats.find? isPreferredFormat with
    | some f =>
      refine ⟨f, ?_, List.mem_of_find?_eq_some hf, List.find?_some hf⟩
      rw [chooseSwapSurfaceFormat, hf]
    | none =>
      exact absurd hpg (by simpa using List.find?_eq_none.mp hf g hg)
  · intro hall
    cases hf : availableFormats.find? isPreferredFormat with
    | some f =>
      have hp := List.find?_some hf
      rw [hall f (List.mem_of_find?_eq_some hf)] at hp
      cases hp
    | none =>
      rw [chooseSwapSurfaceFormat, hf]
      exact List.head?_eq_head hne

/-- C7 witness: the format-choice theorem applied once to the singleton
list holding the preferred pair and once to a singleton list holding an
arbitrary non-matching format. -/
theorem chooseSwapSurfaceFormat_spec_witness :
    (∃ f, chooseSwapSurfaceFormat [{ format := 44, colorSpace := 0 }] = some f ∧
       f ∈ [({ format := 44, colorSpace := 0 } : SurfaceFormat)] ∧
       isPreferredFormat f = true) ∧
    chooseSwapSurfaceFormat [{ format := 10, colorSpace := 3 }] =
      some (List.head [({ format := 10, colorSpace := 3 } : SurfaceFormat)] (by decide)) := by
  constructor
  · exact (chooseSwapSurfaceFormat_spec [{ format := 44, colorSpace := 0 }] (by decide)).1
      ⟨{ format := 44, colorSpace := 0 }, by decide, by decide⟩
  · exact (chooseSwapSurfaceFormat_spec [{ format := 10, colorSpace := 3 }] (by decide)).2
      (by decide)

/-- C8: the swap-chain image count requested by createSwapChain equals
minImageCount + 1 (uint32 addition), clamped down to maxImageCount when
maxImageCount is nonzero; in particular minImageCount = 2 with
maxImageCount = 0 yields 3, and minImageCount = 2 with maxImageCount = 2
yields 2. -/
theorem requestedImageCount_spec :
    (∀ capabilities : SurfaceCapabilities,
       requestedImageCount capabilities =
         if capabilities.maxImageCount = 0 then
           (capabilities.minImageCount + 1) % 2 ^ 32
         else
           min ((capabilities.minImageCount + 1) % 2 ^ 32) capabilities.maxImageCount) ∧
    requestedImageCount
      { currentExtent := { width := 800, height := 600 },
        minImageExtent := { width := 800, height := 600 },
        maxImageExtent := { width := 800, height := 600 },
        minImageCount := 2, maxImageCount := 0 } = 3 ∧
    requestedImageCount
      { currentExtent := { width := 800, height := 600 },
        minImageExtent := { width := 800, height := 600 },
        maxImageExtent := { width := 800, height := 600 },
        minImageCount := 2, maxImageCount := 2 } = 2 := by
  refine ⟨?_, by decide, by decide⟩
  intro capabilities
  rw [requestedImageCount]
  by_cases h0 : capabilities.maxImageCount = 0
  · simp [h0]
  · rw [if_neg h0]
    split <;> omega

/-- C9: createLogicalDevice issues exactly one queue-creation request
(queue count 1, priority 1.0) when the graphics and present roles resolve
to the same family index, and exactly two when they differ; the requested
family indices are exactly the distinct resolved indices. -/
theorem makeQueueCreateInfos_spec (graphicsFamily presentFamily : Nat) :
    ((makeQueueCreateInfos graphicsFamily presentFamily).length =
       if graphicsFamily = presentFamily then 1 else 2) ∧
    ((makeQueueCreateInfos graphicsFamily presentFamily).all
       (fun ci => ci.queueCount == 1 && decide (ci.queuePriority = 1)) = true) ∧
    ((makeQueueCreateInfos graphicsFamily presentFamily).map
       (fun ci => ci.queueFamilyIndex) =
         uniqueQueueFamilies graphicsFamily presentFamily) := by
  by_cases h : graphicsFamily = presentFamily
  · simp [makeQueueCreateInfos, uniqueQueueFamilies, h]
  · by_cases hlt : graphicsFamily < presentFamily <;>
      simp [makeQueueCreateInfos, uniqueQueueFamilies, h, hlt]

end VulkanTesting
